import Mathlib

/-!
Verification of the logs2metrics core: a shallow embedding of the
suitability scorer, cost estimator, guardrail evaluator, backend
provisioner and health reconciler, with theorems settling the spec's
claims against the code.

Python floats are modelled as rationals, dict lookups as association
lists or oracle functions, and calls to the external analytics engine
as explicit oracle arguments (`Option` result = the call raised).
-/

namespace Logs2Metrics

/-! ## Data model (models.py) -/

inductive ComputeType where
  | count
  | sum
  | avg
  | distribution
deriving Repr, DecidableEq

inductive RuleStatus where
  | draft
  | active
  | paused
  | error
deriving Repr, DecidableEq

structure SourceConfig where
  index_pattern : String
  time_field : String := "timestamp"
  /-- Optional ES query DSL filter, kept opaque (its content is never inspected
  by the components under verification). -/
  filter_query : Option String := none
deriving Repr, DecidableEq

structure GroupByConfig where
  time_bucket : String := "1m"
  dimensions : List String := []
  frequency : Option String := none
  sync_delay : String := "30s"
deriving Repr, DecidableEq

structure ComputeConfig where
  type : ComputeType
  field : Option String := none
  percentiles : Option (List ℚ) := none
deriving Repr, DecidableEq

structure BackendConfig where
  retention_days : Nat := 450
deriving Repr, DecidableEq

structure RuleCreate where
  name : String
  owner : String := ""
  source : SourceConfig
  group_by : GroupByConfig := {}
  compute : ComputeConfig
  backend_config : BackendConfig := {}
  status : RuleStatus := RuleStatus.draft
deriving Repr, DecidableEq

/-! ## ES connector response models (connector_models.py) -/

structure IndexStats where
  index : String
  doc_count : Nat
  store_size_bytes : Nat
deriving Repr, DecidableEq

structure FieldMapping where
  name : String
  type : String
  aggregatable : Bool := true
deriving Repr, DecidableEq

structure MetricInfo where
  type : String
  field : Option String := none
deriving Repr, DecidableEq

structure PanelAnalysis where
  panel_id : String
  title : String
  index_pattern : Option String := none
  time_field : Option String := none
  date_histogram_interval : Option String := none
  visualization_type : String
  agg_types : List String := []
  metrics : List MetricInfo := []
  group_by_fields : List String := []
  has_raw_docs : Bool := false
  filter_query : Option String := none
deriving Repr, DecidableEq

/-! ## Oracles for the external analytics engine

The estimator reaches the engine through `es_connector.get_index_stats`
and `es_connector.get_field_cardinality`.  They are modelled as oracle
arguments; a cardinality oracle answering `none` models the call raising
(the code catches that exception per dimension). -/

/-- Stats oracle: index name → live stats of that index. -/
def StatsOracle := String → IndexStats

/-- Cardinality oracle: index name → field name → approximate distinct
count, or `none` when the lookup raises. -/
def CardOracle := String → String → Option Nat

/-! ## Cost estimator (cost_estimator.py) -/

/-- `METRIC_POINT_SIZE_BYTES`: approximate size of one metric point. -/
def METRIC_POINT_SIZE_BYTES : Nat := 40

/-- `DEFAULT_LOG_RETENTION_DAYS`. -/
def DEFAULT_LOG_RETENTION_DAYS : Nat := 30

/-- `HIGH_CARDINALITY_FIELDS`: field names Datadog warns against grouping by. -/
def HIGH_CARDINALITY_FIELDS : List String :=
  [ "user_id", "userid", "user_name", "username",
    "request_id", "requestid", "req_id",
    "session_id", "sessionid",
    "trace_id", "traceid", "span_id", "spanid",
    "transaction_id", "txn_id",
    "ip", "ip_address", "client_ip", "source_ip",
    "uuid", "guid", "correlation_id",
    "message", "msg", "log", "body" ]

/-- Python `s.rstrip("*")`: drop every trailing `*`. -/
def rstripStar (s : String) : String :=
  String.mk ((s.toList.reverse.dropWhile (fun c => c = '*')).reverse)

/-- The index used for all engine queries in `estimate_cost`:
the pattern with trailing wildcards stripped, falling back to the
original pattern when stripping leaves nothing. -/
def volumeIndexOf (pattern : String) : String :=
  let index := rstripStar pattern
  if index = "" then pattern else index

/-- Python `round` (banker's rounding) to an integer. -/
def roundHalfEven (q : ℚ) : ℤ :=
  let f := ⌊q⌋
  let r := q - f
  if r < 1 / 2 then f
  else if 1 / 2 < r then f + 1
  else if f % 2 = 0 then f else f + 1

/-- Python `round(q, ndigits)`. -/
def pyRound (q : ℚ) (ndigits : Nat) : ℚ :=
  (roundHalfEven (q * 10 ^ ndigits) : ℚ) / 10 ^ ndigits

/-- `_parse_time_bucket_seconds`: parse `10s` / `5m` / `1h` / `1d`
to seconds, 60 on empty or unparseable input. -/
def parse_time_bucket_seconds (bucket : String) : Nat :=
  if bucket = "" then 60
  else if bucket.endsWith "s" then
    match (bucket.dropRight 1).toInt? with
    | some n => (max 1 n).toNat
    | none => 60
  else if bucket.endsWith "m" then
    match (bucket.dropRight 1).toInt? with
    | some n => (max 1 (n * 60)).toNat
    | none => 60
  else if bucket.endsWith "h" then
    match (bucket.dropRight 1).toInt? with
    | some n => (max 1 (n * 3600)).toNat
    | none => 60
  else if bucket.endsWith "d" then
    match (bucket.dropRight 1).toInt? with
    | some n => (max 1 (n * 86400)).toNat
    | none => 60
  else 60

/-- `_estimate_series_count`: product of dimension cardinalities, each
clamped below at 1, with 100 substituted when the lookup raises; 1 with
no dimensions. -/
def estimate_series_count (card : CardOracle) (index : String)
    (dimensions : List String) : Nat :=
  if dimensions.isEmpty then 1
  else
    dimensions.foldl
      (fun product dim =>
        match card index dim with
        | some c => product * max c 1
        | none => product * 100)
      1

structure CostEstimate where
  log_storage_gb : ℚ
  metric_storage_gb : ℚ
  savings_gb : ℚ
  savings_pct : ℚ
  query_speedup_x : ℚ
  estimated_series_count : Nat
  docs_per_day : Nat
  metric_points_per_day : Nat
  log_retention_days : Nat
  metric_retention_days : Nat
deriving Repr, DecidableEq

/-- `estimate_cost`: storage-cost comparison between logs and metrics
for a rule, from live index stats and field cardinalities. -/
def estimate_cost (stats : StatsOracle) (card : CardOracle)
    (rule : RuleCreate) (log_retention_days : Nat) : CostEstimate :=
  let index := volumeIndexOf rule.source.index_pattern
  let st := stats index
  let doc_count := st.doc_count
  let store_bytes := st.store_size_bytes
  if doc_count = 0 then
    { log_storage_gb := 0
      metric_storage_gb := 0
      savings_gb := 0
      savings_pct := 0
      query_speedup_x := 1
      estimated_series_count := 0
      docs_per_day := 0
      metric_points_per_day := 0
      log_retention_days := log_retention_days
      metric_retention_days := rule.backend_config.retention_days }
  else
    let avg_doc_size : ℚ := (store_bytes : ℚ) / (doc_count : ℚ)
    let docs_per_day := doc_count
    let series_count := estimate_series_count card index rule.group_by.dimensions
    let bucket_seconds := parse_time_bucket_seconds rule.group_by.time_bucket
    let points_per_day_per_series := 86400 / bucket_seconds
    let metric_points_per_day := series_count * points_per_day_per_series
    let log_storage_bytes : ℚ := (docs_per_day : ℚ) * avg_doc_size * (log_retention_days : ℚ)
    let metric_storage_bytes : ℚ :=
      (metric_points_per_day : ℚ) * (METRIC_POINT_SIZE_BYTES : ℚ)
        * (rule.backend_config.retention_days : ℚ)
    let log_storage_gb := log_storage_bytes / (1024 ^ 3 : ℚ)
    let metric_storage_gb := metric_storage_bytes / (1024 ^ 3 : ℚ)
    let savings_gb := log_storage_gb - metric_storage_gb
    let savings_pct := if log_storage_gb > 0 then savings_gb / log_storage_gb * 100 else 0
    let query_speedup : ℚ :=
      if metric_points_per_day > 0 then (docs_per_day : ℚ) / (metric_points_per_day : ℚ) else 1
    { log_storage_gb := pyRound log_storage_gb 4
      metric_storage_gb := pyRound metric_storage_gb 4
      savings_gb := pyRound savings_gb 4
      savings_pct := pyRound savings_pct 1
      query_speedup_x := pyRound query_speedup 1
      estimated_series_count := series_count
      docs_per_day := docs_per_day
      metric_points_per_day := metric_points_per_day
      log_retention_days := log_retention_days
      metric_retention_days := rule.backend_config.retention_days }

/-- One query issued to the analytics engine by the estimator. -/
inductive ESQuery where
  | stat (index : String)
  | card (index : String) (field : String)
deriving Repr, DecidableEq

/-- The index argument of a query. -/
def ESQuery.queryIndex : ESQuery → String
  | .stat index => index
  | .card index _ => index

/-- The sequence of engine queries `estimate_cost` issues for a rule:
one index-stats query, then (unless the document count is zero or there
are no dimensions) one cardinality query per dimension, all against the
same index computed by `volumeIndexOf`. -/
def estimate_cost_queries (stats : StatsOracle) (rule : RuleCreate) : List ESQuery :=
  let index := volumeIndexOf rule.source.index_pattern
  ESQuery.stat index ::
    (if (stats index).doc_count = 0 then []
     else if rule.group_by.dimensions.isEmpty then []
     else rule.group_by.dimensions.map (fun dim => ESQuery.card index dim))

/-! ## String formatting helpers

Python renders numbers inside explanation strings with `{n:,}`
(thousands separators) and `{x:.kf}` (fixed decimals).  These helpers
reproduce that on ℕ/ℚ. -/

/-- Insert a comma after every third digit of a reversed digit list. -/
def groupThrees : List Char → List Char
  | a :: b :: c :: d :: rest => a :: b :: c :: ',' :: groupThrees (d :: rest)
  | l => l

/-- Python `f"{n:,}"` for a natural number. -/
def natThousands (n : Nat) : String :=
  String.mk ((groupThrees (toString n).toList.reverse).reverse)

/-- Python `f"{q:.df}"`: fixed-point rendering with `d` decimals. -/
def fmtFixed (q : ℚ) (d : Nat) : String :=
  let scaled : ℤ := roundHalfEven (q * 10 ^ d)
  let sign := if scaled < 0 then "-" else ""
  let a := scaled.natAbs
  let ipart := a / 10 ^ d
  let fpart := a % 10 ^ d
  let fs := toString fpart
  let fs := String.mk (List.replicate (d - fs.length) '0') ++ fs
  sign ++ toString ipart ++ "." ++ fs

/-! ## Suitability scorer (scoring.py) -/

/-- `NUMERIC_AGG_TYPES`: aggregation types producing numeric metrics. -/
def NUMERIC_AGG_TYPES : List String :=
  [ "count", "sum", "avg", "min", "max", "percentiles",
    "cardinality", "value_count", "median_absolute_deviation" ]

structure ScoreBreakdown where
  signal : String
  points : Nat
  max_points : Nat
  explanation : String
deriving Repr, DecidableEq

structure SuitabilityScore where
  total : Nat
  max_total : Nat
  breakdown : List ScoreBreakdown
  recommendation_text : String
deriving Repr, DecidableEq

/-- `_score_date_histogram`. -/
def score_date_histogram (panel : PanelAnalysis) : ScoreBreakdown :=
  let has := panel.agg_types.contains "date_histogram"
  { signal := "date_histogram"
    points := if has then 25 else 0
    max_points := 25
    explanation :=
      if has then
        "Panel uses date_histogram aggregation — ideal for time-bucketed metrics."
      else
        "Panel does not use date_histogram — time-series bucketing not detected." }

/-- `_score_numeric_aggs`. -/
def score_numeric_aggs (panel : PanelAnalysis) : ScoreBreakdown :=
  if panel.metrics.isEmpty = false then
    let all_numeric := panel.metrics.all (fun m => NUMERIC_AGG_TYPES.contains m.type)
    if all_numeric then
      let agg_list := String.intercalate ", " (panel.metrics.map (fun m => m.type))
      { signal := "numeric_aggs", points := 20, max_points := 20
        explanation := "All metrics are numeric aggregations (" ++ agg_list ++ ")." }
    else
      let non_num :=
        (panel.metrics.filter (fun m => !(NUMERIC_AGG_TYPES.contains m.type))).map
          (fun m => m.type)
      { signal := "numeric_aggs", points := 0, max_points := 20
        explanation :=
          "Non-numeric aggregations detected: " ++ String.intercalate ", " non_num ++ "." }
  else if panel.has_raw_docs = false then
    { signal := "numeric_aggs", points := 10, max_points := 20
      explanation := "No explicit metric aggregations found; may default to count." }
  else
    { signal := "numeric_aggs", points := 0, max_points := 20
      explanation := "Panel shows raw documents — no numeric aggregations." }

/-- `_score_no_raw_docs`. -/
def score_no_raw_docs (panel : PanelAnalysis) : ScoreBreakdown :=
  { signal := "no_raw_docs"
    points := if panel.has_raw_docs then 0 else 15
    max_points := 15
    explanation :=
      if panel.has_raw_docs = false then
        "Panel does not display raw log lines."
      else
        "Panel displays raw documents — cannot be converted to metrics." }

/-- Lookup in the `field_types` dict. -/
def lookupFieldType (field_types : List (String × FieldMapping)) (f : String) :
    Option FieldMapping :=
  (field_types.find? (fun p => p.1 == f)).map (fun p => p.2)

/-- `_score_aggregatable_dimensions`.  `field_types = []` models both an
absent (`None`) and an empty dict, which Python treats alike (falsy). -/
def score_aggregatable_dimensions (panel : PanelAnalysis)
    (field_types : List (String × FieldMapping)) : ScoreBreakdown :=
  if panel.group_by_fields.isEmpty = false ∧ field_types.isEmpty = false then
    let isAgg := fun f =>
      match lookupFieldType field_types f with
      | some m => m.aggregatable
      | none => false
    let all_agg := panel.group_by_fields.all isAgg
    if all_agg then
      let dims := String.intercalate ", " panel.group_by_fields
      { signal := "aggregatable_dimensions", points := 10, max_points := 10
        explanation := "All group-by fields are aggregatable: " ++ dims ++ "." }
    else
      let non_agg := panel.group_by_fields.filter (fun f => !(isAgg f))
      { signal := "aggregatable_dimensions", points := 0, max_points := 10
        explanation :=
          "Non-aggregatable group-by fields: " ++ String.intercalate ", " non_agg ++ "." }
  else if panel.group_by_fields.isEmpty = false then
    let dims := String.intercalate ", " panel.group_by_fields
    { signal := "aggregatable_dimensions", points := 5, max_points := 10
      explanation :=
        "Group-by fields present (" ++ dims ++ ") but field types not verified." }
  else
    { signal := "aggregatable_dimensions", points := 5, max_points := 10
      explanation := "No group-by dimensions — metric would be a simple time series." }

/-- `_parse_lookback_days`: parse Kibana relative time like `now-7d`
into approximate days. -/
def parse_lookback_days (time_from : String) : Option ℤ :=
  if time_from.startsWith "now-" = false then none
  else
    let suffix := time_from.drop 4
    if suffix.endsWith "d" then (suffix.dropRight 1).toInt?
    else if suffix.endsWith "w" then ((suffix.dropRight 1).toInt?).map (fun n => n * 7)
    else if suffix.endsWith "M" then ((suffix.dropRight 1).toInt?).map (fun n => n * 30)
    else if suffix.endsWith "y" then ((suffix.dropRight 1).toInt?).map (fun n => n * 365)
    else if suffix.endsWith "h" then
      ((suffix.dropRight 1).toInt?).map (fun n => max 1 (Int.fdiv n 24))
    else if suffix.endsWith "m" then
      ((suffix.dropRight 1).toInt?).map (fun n => max 1 (Int.fdiv n 1440))
    else none

/-- `_score_lookback`. -/
def score_lookback (dashboard_time_from : Option String) : ScoreBreakdown :=
  match dashboard_time_from with
  | none =>
    { signal := "lookback_window", points := 0, max_points := 15
      explanation := "No dashboard lookback information available." }
  | some time_from =>
    match parse_lookback_days time_from with
    | none =>
      { signal := "lookback_window", points := 0, max_points := 15
        explanation := "Could not parse dashboard lookback period." }
    | some days =>
      if days ≥ 7 then
        { signal := "lookback_window", points := 15, max_points := 15
          explanation :=
            s!"Dashboard lookback is ~{days} days — long lookback benefits most from pre-aggregation." }
      else
        { signal := "lookback_window", points := 5, max_points := 15
          explanation :=
            s!"Dashboard lookback is ~{days} days — shorter windows benefit less from pre-aggregation." }

/-- `_score_auto_refresh`. -/
def score_auto_refresh (refresh_interval_ms : Option ℤ) : ScoreBreakdown :=
  match refresh_interval_ms with
  | some r =>
    if r > 0 then
      let secs := Int.fdiv r 1000
      { signal := "auto_refresh", points := 10, max_points := 10
        explanation :=
          s!"Auto-refresh enabled (every {secs}s) — repeated queries benefit from pre-aggregation." }
    else
      { signal := "auto_refresh", points := 0, max_points := 10
        explanation := "Auto-refresh not enabled or not detected." }
  | none =>
    { signal := "auto_refresh", points := 0, max_points := 10
      explanation := "Auto-refresh not enabled or not detected." }

/-- `_generate_recommendation`: recommendation text from total and the
raw-record flag. -/
def generate_recommendation (total : Nat) (panel : PanelAnalysis) : String :=
  if panel.has_raw_docs then
    "This panel displays raw log lines and cannot be converted to a metric. " ++
    "Consider creating a separate aggregation-based visualization if metrics are needed."
  else if total ≥ 70 then
    s!"Strong candidate for metric conversion (score: {total}). " ++
    "This panel's aggregations can be efficiently pre-computed as a metric, " ++
    "reducing query cost and improving dashboard performance."
  else if total ≥ 40 then
    s!"Moderate candidate for metric conversion (score: {total}). " ++
    "This panel could benefit from pre-aggregation, but review the scoring " ++
    "breakdown to understand potential limitations."
  else
    s!"Weak candidate for metric conversion (score: {total}). " ++
    "This panel may not benefit significantly from conversion to metrics. " ++
    "Review the breakdown for details."

/-- `score_panel`: six independent signals, summed, plus recommendation. -/
def score_panel (panel : PanelAnalysis)
    (field_types : List (String × FieldMapping))
    (dashboard_time_from : Option String)
    (refresh_interval_ms : Option ℤ) : SuitabilityScore :=
  let breakdown :=
    [ score_date_histogram panel,
      score_numeric_aggs panel,
      score_no_raw_docs panel,
      score_aggregatable_dimensions panel field_types,
      score_lookback dashboard_time_from,
      score_auto_refresh refresh_interval_ms ]
  let total := (breakdown.map (fun b => b.points)).sum
  let max_total := (breakdown.map (fun b => b.max_points)).sum
  { total := total
    max_total := max_total
    breakdown := breakdown
    recommendation_text := generate_recommendation total panel }

/-! ## Guardrail evaluator (guardrails.py) -/

/-- `MAX_SERIES_COUNT`. -/
def MAX_SERIES_COUNT : Nat := 100000

/-- `MAX_DIMENSIONS`. -/
def MAX_DIMENSIONS : Nat := 5

structure GuardrailResult where
  name : String
  passed : Bool
  explanation : String
  suggested_fix : Option String := none
deriving Repr, DecidableEq

structure GuardrailsReport where
  all_passed : Bool
  results : List GuardrailResult
  cost_estimate : CostEstimate
deriving Repr, DecidableEq

/-- `_check_dimension_limit`: at most `MAX_DIMENSIONS` group-by dimensions. -/
def check_dimension_limit (rule : RuleCreate) : GuardrailResult :=
  let dims := rule.group_by.dimensions
  let count := dims.length
  if count ≤ MAX_DIMENSIONS then
    { name := "dimension_limit", passed := true
      explanation :=
        s!"Rule uses {count} dimension(s) (limit: {MAX_DIMENSIONS})." }
  else
    let excess := String.intercalate ", " (dims.drop MAX_DIMENSIONS)
    { name := "dimension_limit", passed := false
      explanation :=
        s!"Rule uses {count} dimensions, exceeding the limit of {MAX_DIMENSIONS}. " ++
        "More dimensions = exponentially more metric series."
      suggested_fix := some
        (s!"Reduce to at most {MAX_DIMENSIONS} dimensions. " ++
         "Remove the least important group-by fields: " ++ excess ++ ".") }

/-- `_check_cardinality`: estimated series count at most `MAX_SERIES_COUNT`. -/
def check_cardinality (cost : CostEstimate) : GuardrailResult :=
  let series := cost.estimated_series_count
  if series ≤ MAX_SERIES_COUNT then
    { name := "cardinality", passed := true
      explanation :=
        "Estimated series count: " ++ natThousands series ++
        " (limit: " ++ natThousands MAX_SERIES_COUNT ++ ")." }
  else
    { name := "cardinality", passed := false
      explanation :=
        "Estimated series count is " ++ natThousands series ++
        ", exceeding the limit of " ++ natThousands MAX_SERIES_COUNT ++
        ". This would create excessive metric data."
      suggested_fix := some
        ("Remove high-cardinality dimensions or add a filter to reduce the " ++
         "number of unique dimension combinations. Avoid grouping by " ++
         "unbounded attributes like user_id, request_id, or session_id.") }

/-- `_check_high_cardinality_fields`: no dimension may be a known
high-cardinality field name (case-insensitive). -/
def check_high_cardinality_fields (rule : RuleCreate) : GuardrailResult :=
  let dims := rule.group_by.dimensions
  let flagged := dims.filter (fun d => HIGH_CARDINALITY_FIELDS.contains d.toLower)
  if flagged.isEmpty then
    { name := "high_cardinality_fields", passed := true
      explanation := "No known high-cardinality field names detected." }
  else
    let names := String.intercalate ", " flagged
    { name := "high_cardinality_fields", passed := false
      explanation :=
        "Dimension(s) " ++ names ++ " are typically unbounded high-cardinality " ++
        "fields. Grouping by these will produce an excessive number of metric series."
      suggested_fix := some
        ("Remove " ++ names ++ " from group-by dimensions. " ++
         "Use these fields in filters instead if needed.") }

/-- `_check_net_savings`: savings must be strictly positive. -/
def check_net_savings (cost : CostEstimate) : GuardrailResult :=
  if cost.savings_gb > 0 then
    { name := "net_savings", passed := true
      explanation :=
        "Estimated savings: " ++ fmtFixed cost.savings_gb 2 ++ " GB (" ++
        fmtFixed cost.savings_pct 1 ++ "%). Metric storage (" ++
        fmtFixed cost.metric_storage_gb 4 ++ " GB) is less than log storage (" ++
        fmtFixed cost.log_storage_gb 4 ++ " GB)." }
  else
    { name := "net_savings", passed := false
      explanation :=
        "Metric storage (" ++ fmtFixed cost.metric_storage_gb 4 ++
        " GB) would exceed log storage (" ++ fmtFixed cost.log_storage_gb 4 ++
        " GB). This conversion would increase costs."
      suggested_fix := some
        ("Use a larger time bucket (e.g. '5m' instead of '1m') or reduce " ++
         "the number of dimensions to decrease the metric series count.") }

/-- `evaluate`: run the four guardrails against a proposed rule and
return the report (the cost estimate is computed first, with the default
log retention). -/
def evaluate (stats : StatsOracle) (card : CardOracle)
    (rule : RuleCreate) : GuardrailsReport :=
  let cost := estimate_cost stats card rule DEFAULT_LOG_RETENTION_DAYS
  let results :=
    [ check_dimension_limit rule,
      check_cardinality cost,
      check_high_cardinality_fields rule,
      check_net_savings cost ]
  { all_passed := results.all (fun r => r.passed)
    results := results
    cost_estimate := cost }

/-! ## Backend provisioner (backend.py, elastic_backend.py)

The external engine is modelled as an explicit state (which retention
policies, indices and transforms exist, and which transforms are
started); each administrative call either succeeds, returning the new
state, or raises `notFound` / `alreadyExists`, exactly as Elasticsearch
answers for the respective resource kind. -/

inductive TransformHealth where
  | green
  | yellow
  | red
  | stopped
  | unknown
deriving Repr, DecidableEq

/-- The `.value` of a `TransformHealth` member. -/
def healthValue : TransformHealth → String
  | .green => "green"
  | .yellow => "yellow"
  | .red => "red"
  | .stopped => "stopped"
  | .unknown => "unknown"

/-- `_map_transform_state`: ES transform state string → health enum. -/
def map_transform_state (state : String) : TransformHealth :=
  if state = "started" then .green
  else if state = "indexing" then .green
  else if state = "stopping" then .yellow
  else if state = "stopped" then .stopped
  else if state = "aborting" then .red
  else if state = "failed" then .red
  else .unknown

/-- `TRANSFORM_PREFIX + rule.id`. -/
def transform_id_of (rule_id : Nat) : String := "l2m-rule-" ++ toString rule_id

/-- `INDEX_PREFIX + rule.id`. -/
def metrics_index_of (rule_id : Nat) : String := "l2m-metrics-rule-" ++ toString rule_id

/-- `ILM_PREFIX + retention_days + "d"`. -/
def ilm_policy_name (retention_days : Nat) : String :=
  "l2m-metrics-" ++ toString retention_days ++ "d"

structure BackendStatus where
  rule_id : Nat
  transform_id : String
  health : TransformHealth
  docs_processed : Nat := 0
  docs_indexed : Nat := 0
  /-- Last checkpoint time, kept as epoch millis. -/
  last_checkpoint : Option Nat := none
  error : Option String := none
deriving Repr, DecidableEq

/-- One entry of the `transforms` array of `get_transform_stats`, with
the dict-lookup defaults the code applies. -/
structure TransformEntry where
  state : String := "unknown"
  documents_processed : Nat := 0
  documents_indexed : Nat := 0
  /-- `checkpointing.last.timestamp_millis`, when present. -/
  timestamp_millis : Option Nat := none
deriving Repr, DecidableEq

structure TransformStatsResult where
  transforms : List TransformEntry
deriving Repr, DecidableEq

/-- `ElasticMetricsBackend.get_status`: `resp = none` models
`get_transform_stats` raising `NotFoundError`. -/
def get_status (rule_id : Nat) (resp : Option TransformStatsResult) : BackendStatus :=
  let tid := transform_id_of rule_id
  match resp with
  | none =>
    { rule_id := rule_id, transform_id := tid
      health := TransformHealth.unknown, error := some "Transform not found" }
  | some stats =>
    match stats.transforms with
    | [] => { rule_id := rule_id, transform_id := tid, health := TransformHealth.unknown }
    | t :: _ =>
      let health := map_transform_state t.state
      let last_checkpoint :=
        match t.timestamp_millis with
        | some ms => if ms ≠ 0 then some ms else none
        | none => none
      { rule_id := rule_id, transform_id := tid, health := health
        docs_processed := t.documents_processed
        docs_indexed := t.documents_indexed
        last_checkpoint := last_checkpoint }

/-! ### Engine state and administrative calls -/

structure EngineState where
  ilm_policies : List String
  indices : List String
  transforms : List String
  started_transforms : List String
deriving Repr, DecidableEq

inductive ESError where
  | notFound
  | alreadyExists
deriving Repr, DecidableEq

/-- The `str(e)` of an engine error. -/
def ESError.message : ESError → String
  | .notFound => "not_found"
  | .alreadyExists => "resource_already_exists_exception"

/-- `es.ilm.get_lifecycle`: succeeds iff the policy exists. -/
def ilmGetLifecycle (s : EngineState) (name : String) : Bool :=
  s.ilm_policies.contains name

/-- `es.ilm.put_lifecycle`: upsert, always succeeds. -/
def ilmPutLifecycle (s : EngineState) (name : String) : EngineState :=
  if s.ilm_policies.contains name then s
  else { s with ilm_policies := name :: s.ilm_policies }

/-- `es.indices.create`: raises `alreadyExists` for an existing index. -/
def indicesCreate (s : EngineState) (name : String) : Except ESError EngineState :=
  if s.indices.contains name then Except.error ESError.alreadyExists
  else Except.ok { s with indices := name :: s.indices }

/-- `es.indices.delete`: raises `notFound` for a missing index. -/
def indicesDelete (s : EngineState) (name : String) : Except ESError EngineState :=
  if s.indices.contains name then Except.ok { s with indices := s.indices.erase name }
  else Except.error ESError.notFound

/-- `es.transform.put_transform`: raises for an existing transform. -/
def putTransform (s : EngineState) (tid : String) : Except ESError EngineState :=
  if s.transforms.contains tid then Except.error ESError.alreadyExists
  else Except.ok { s with transforms := tid :: s.transforms }

/-- `es.transform.start_transform`: raises `notFound` for a missing transform. -/
def startTransform (s : EngineState) (tid : String) : Except ESError EngineState :=
  if s.transforms.contains tid then
    Except.ok { s with started_transforms := tid :: s.started_transforms }
  else Except.error ESError.notFound

/-- `es.transform.stop_transform`: raises `notFound` for a missing transform. -/
def stopTransform (s : EngineState) (tid : String) : Except ESError EngineState :=
  if s.transforms.contains tid then
    Except.ok { s with started_transforms := s.started_transforms.erase tid }
  else Except.error ESError.notFound

/-- `es.transform.delete_transform`: raises `notFound` for a missing transform. -/
def deleteTransform (s : EngineState) (tid : String) : Except ESError EngineState :=
  if s.transforms.contains tid then
    Except.ok { s with
      transforms := s.transforms.erase tid
      started_transforms := s.started_transforms.erase tid }
  else Except.error ESError.notFound

/-! ### Provision / deprovision (ElasticMetricsBackend) -/

/-- A stored `LogMetricRule` row (origin kept opaque). -/
structure StoredRule where
  id : Nat
  name : String
  owner : String := ""
  source : SourceConfig
  group_by : GroupByConfig := {}
  compute : ComputeConfig
  backend_config : BackendConfig := {}
  origin : Option String := none
  status : RuleStatus := RuleStatus.draft
deriving Repr, DecidableEq

structure ProvisionResult where
  success : Bool
  transform_id : String
  metrics_index : String
  ilm_policy : Option String := none
  error : Option String := none
deriving Repr, DecidableEq

/-- `_ensure_ilm_policy`: create-if-absent, keyed by retention days. -/
def ensure_ilm_policy (s : EngineState) (retention_days : Nat) : EngineState × String :=
  let policy_name := ilm_policy_name retention_days
  if ilmGetLifecycle s policy_name then (s, policy_name)
  else (ilmPutLifecycle s policy_name, policy_name)

/-- `_create_metrics_index`: create the destination index (mapping
content is irrelevant to engine-state transitions and not modelled). -/
def create_metrics_index (s : EngineState) (rule : StoredRule) :
    Except ESError EngineState :=
  indicesCreate s (metrics_index_of rule.id)

/-- `_cleanup_partial_steps`: best-effort stop transform, delete transform,
delete index — every step swallows its own error. -/
def cleanup_partial_steps (s : EngineState) (tid index_name : String) : EngineState :=
  let s1 := match stopTransform s tid with | Except.ok s' => s' | Except.error _ => s
  let s2 := match deleteTransform s1 tid with | Except.ok s' => s' | Except.error _ => s1
  match indicesDelete s2 index_name with | Except.ok s' => s' | Except.error _ => s2

/-- `ElasticMetricsBackend.provision`: ILM policy, destination index,
create transform, start transform; on any failure run `_cleanup_partial_steps`
and report the error. -/
def provision (s0 : EngineState) (rule : StoredRule) : EngineState × ProvisionResult :=
  let tid := transform_id_of rule.id
  let dest := metrics_index_of rule.id
  let (s1, policy) := ensure_ilm_policy s0 rule.backend_config.retention_days
  match create_metrics_index s1 rule with
  | Except.error e =>
    (cleanup_partial_steps s1 tid dest,
     { success := false, transform_id := tid, metrics_index := dest
       error := some e.message })
  | Except.ok s2 =>
    match putTransform s2 tid with
    | Except.error e =>
      (cleanup_partial_steps s2 tid dest,
       { success := false, transform_id := tid, metrics_index := dest
         error := some e.message })
    | Except.ok s3 =>
      match startTransform s3 tid with
      | Except.error e =>
        (cleanup_partial_steps s3 tid dest,
         { success := false, transform_id := tid, metrics_index := dest
           error := some e.message })
      | Except.ok s4 =>
        (s4, { success := true, transform_id := tid, metrics_index := dest
               ilm_policy := some policy })

/-- `ElasticMetricsBackend.deprovision`: stop transform, delete
transform, delete index; `NotFoundError` (and any other error) on each
step is swallowed and the next step still runs. -/
def deprovision (s : EngineState) (rule_id : Nat) : EngineState :=
  let tid := transform_id_of rule_id
  let index_name := metrics_index_of rule_id
  let s1 := match stopTransform s tid with | Except.ok s' => s' | Except.error _ => s
  let s2 := match deleteTransform s1 tid with | Except.ok s' => s' | Except.error _ => s1
  match indicesDelete s2 index_name with | Except.ok s' => s' | Except.error _ => s2

/-! ## API layer logic (main.py) -/

inductive BackendCall where
  | provisionCall
  | deprovisionCall
deriving Repr, DecidableEq

/-- `create_rule`'s outcome: either a 422 with the failed checks, or a
persisted rule (with the backend calls made and the final status). -/
inductive CreateOutcome where
  | rejected (failures : List GuardrailResult)
  | persisted (finalStatus : RuleStatus) (calls : List BackendCall)
deriving Repr, DecidableEq

/-- `create_rule`: guardrail gate, persist, provision when active.
`provisionOk` is whether the backend's provision call succeeds. -/
def create_rule (stats : StatsOracle) (card : CardOracle) (body : RuleCreate)
    (skip_guardrails : Bool) (provisionOk : Bool) : CreateOutcome :=
  let report := evaluate stats card body
  if report.all_passed = false ∧ skip_guardrails = false then
    CreateOutcome.rejected (report.results.filter (fun r => r.passed = false))
  else if body.status = RuleStatus.active then
    if provisionOk then CreateOutcome.persisted RuleStatus.active [BackendCall.provisionCall]
    else CreateOutcome.persisted RuleStatus.error [BackendCall.provisionCall]
  else CreateOutcome.persisted body.status []

/-- A `RuleUpdate` payload under `exclude_unset` semantics: `some v`
means the key is present in the submitted JSON with value `v`. -/
structure RuleUpdatePayload where
  name : Option String := none
  owner : Option String := none
  source : Option SourceConfig := none
  group_by : Option GroupByConfig := none
  compute : Option ComputeConfig := none
  backend_config : Option BackendConfig := none
  origin : Option String := none
  status : Option RuleStatus := none
deriving Repr, DecidableEq

/-- The `setattr` loop of `update_rule`: overwrite each field whose key
is present in the payload. -/
def apply_update (rule : StoredRule) (upd : RuleUpdatePayload) : StoredRule :=
  { rule with
    name := upd.name.getD rule.name
    owner := upd.owner.getD rule.owner
    source := upd.source.getD rule.source
    group_by := upd.group_by.getD rule.group_by
    compute := upd.compute.getD rule.compute
    backend_config := upd.backend_config.getD rule.backend_config
    origin := match upd.origin with | some o => some o | none => rule.origin
    status := upd.status.getD rule.status }

/-- `update_rule`: apply the payload, then the status-transition logic —
provision on entering `active`, deprovision on leaving it, and
deprovision-then-provision when an active rule's payload contains any of
the keys `group_by`, `compute`, `source`.  Returns the ordered backend
calls made and the final stored rule. -/
def update_rule (rule : StoredRule) (upd : RuleUpdatePayload)
    (provisionOk : Bool) : List BackendCall × StoredRule :=
  let old_status := rule.status
  let updated := apply_update rule upd
  let new_status := updated.status
  if old_status ≠ new_status then
    if new_status = RuleStatus.active then
      if provisionOk then ([BackendCall.provisionCall], updated)
      else ([BackendCall.provisionCall], { updated with status := RuleStatus.error })
    else if old_status = RuleStatus.active then
      ([BackendCall.deprovisionCall], updated)
    else ([], updated)
  else if old_status = RuleStatus.active ∧ new_status = RuleStatus.active then
    if upd.group_by.isSome ∨ upd.compute.isSome ∨ upd.source.isSome then
      let calls := [BackendCall.deprovisionCall, BackendCall.provisionCall]
      if provisionOk then (calls, updated)
      else (calls, { updated with status := RuleStatus.error })
    else ([], updated)
  else ([], updated)

/-! ### Health monitor (`_check_all_active_rules`) -/

/-- One row of `_health_monitor_state["rules_in_error"]`. -/
structure HealthErrorEntry where
  rule_id : Nat
  rule_name : String
  transform_health : String
  error : Option String
deriving Repr, DecidableEq

/-- The loop body for one rule: non-active rules are not selected by the
query; `statusOf r.id = none` models `get_status` raising, which the
per-rule `except` swallows. -/
def check_one_rule (statusOf : Nat → Option BackendStatus) (r : StoredRule) :
    StoredRule × Option HealthErrorEntry :=
  if r.status = RuleStatus.active then
    match statusOf r.id with
    | none => (r, none)
    | some st =>
      if st.health = TransformHealth.red ∨ st.health = TransformHealth.stopped then
        ({ r with status := RuleStatus.error },
         some { rule_id := r.id, rule_name := r.name
                transform_health := healthValue st.health, error := st.error })
      else (r, none)
  else (r, none)

/-- `_check_all_active_rules`: walk every rule, flip unhealthy active
rules to `error`, collect the error entries in order. -/
def check_all_active_rules (rules : List StoredRule)
    (statusOf : Nat → Option BackendStatus) :
    List StoredRule × List HealthErrorEntry :=
  match rules with
  | [] => ([], [])
  | r :: rest =>
    let (r', e?) := check_one_rule statusOf r
    let (rs, es) := check_all_active_rules rest statusOf
    (r' :: rs, match e? with | some e => e :: es | none => es)

/-! ## Claims -/

/-- Claim C6: for every rule with a nonempty dimension list, the
estimated series count is the product over the dimensions of the
looked-up cardinality clamped below at 1, with 100 substituted for a
dimension whose lookup raises; with zero dimensions it is exactly 1; and
dimensions `[service, endpoint]` each at cardinality 10 give exactly 100. -/
theorem series_count_is_clamped_product :
    (∀ (card : CardOracle) (index : String) (dims : List String),
      estimate_series_count card index dims =
        if dims.isEmpty then 1
        else (dims.map (fun d =>
          match card index d with
          | some c => max c 1
          | none => 100)).prod) ∧
    estimate_series_count
      (fun _ d => if d = "service" ∨ d = "endpoint" then some 10 else none)
      "app-logs" ["service", "endpoint"] = 100 ∧
    (∀ (card : CardOracle) (index : String),
      estimate_series_count card index [] = 1) := by
  refine ⟨?_, by decide, ?_⟩
  · intro card index dims
    unfold estimate_series_count
    by_cases h : dims.isEmpty
    · simp [h]
    · simp only [h, if_false, List.prod_eq_foldl, List.foldl_map]
      have hf :
          (fun (product : Nat) (dim : String) =>
            match card index dim with
            | some c => product * max c 1
            | none => product * 100) =
          (fun (x : Nat) (y : String) =>
            x * match card index y with
                | some c => max c 1
                | none => 100) := by
        funext product dim
        cases card index dim <;> rfl
      rw [hf]
  · intro card index
    rfl

/-- Claim C7: for every panel with `has_raw_docs = true`, the
no-raw-docs signal scores 0 of 15 and the recommendation is the fixed
"cannot be converted" message, regardless of every other input and of
the total score. -/
theorem raw_docs_zero_signal_and_fixed_recommendation :
    ∀ (panel : PanelAnalysis) (field_types : List (String × FieldMapping))
      (dashboard_time_from : Option String) (refresh_interval_ms : Option ℤ),
      panel.has_raw_docs = true →
      (score_panel panel field_types dashboard_time_from refresh_interval_ms).breakdown[2]? =
        some { signal := "no_raw_docs", points := 0, max_points := 15
               explanation := "Panel displays raw documents — cannot be converted to metrics." } ∧
      (score_panel panel field_types dashboard_time_from refresh_interval_ms).recommendation_text =
        "This panel displays raw log lines and cannot be converted to a metric. " ++
        "Consider creating a separate aggregation-based visualization if metrics are needed." := by
  intro panel field_types dashboard_time_from refresh_interval_ms h
  constructor
  · simp [score_panel, score_no_raw_docs, h]
  · simp [score_panel, generate_recommendation, h]

/-- A concrete raw-record panel. -/
def rawDocsPanel : PanelAnalysis :=
  { panel_id := "panel-1", title := "Log stream", visualization_type := "table"
    agg_types := ["date_histogram"], metrics := [{ type := "count" }]
    group_by_fields := ["service"], has_raw_docs := true }

/-- Witness for C7 at a concrete panel. -/
theorem raw_docs_zero_signal_witness :
    (score_panel rawDocsPanel [] (some "now-30d") (some 10000)).breakdown[2]? =
      some { signal := "no_raw_docs", points := 0, max_points := 15
             explanation := "Panel displays raw documents — cannot be converted to metrics." } ∧
    (score_panel rawDocsPanel [] (some "now-30d") (some 10000)).recommendation_text =
      "This panel displays raw log lines and cannot be converted to a metric. " ++
      "Consider creating a separate aggregation-based visualization if metrics are needed." :=
  raw_docs_zero_signal_and_fixed_recommendation rawDocsPanel [] (some "now-30d") (some 10000) rfl

/-- Counterexample to claim C4 as stated: the engine state string
`"running"` does not map to green — the code maps `"started"` to green
and leaves `"running"` to the `unknown` default. -/
theorem running_state_not_green :
    map_transform_state "running" = TransformHealth.unknown ∧
    map_transform_state "running" ≠ TransformHealth.green ∧
    map_transform_state "started" = TransformHealth.green := by
  refine ⟨by decide, by decide, by decide⟩

/-- Claim C4 (amended): the status query maps started/indexing → green,
stopping → yellow, stopped → stopped, aborting/failed → red, anything
else or not-found → unknown, surfaces the processed/indexed counters and
last-checkpoint time, and a job reporting zero processed/indexed
documents yields green with `docs_processed = 0`. -/
theorem status_query_mapping :
    (map_transform_state "started" = TransformHealth.green ∧
     map_transform_state "indexing" = TransformHealth.green ∧
     map_transform_state "stopping" = TransformHealth.yellow ∧
     map_transform_state "stopped" = TransformHealth.stopped ∧
     map_transform_state "aborting" = TransformHealth.red ∧
     map_transform_state "failed" = TransformHealth.red) ∧
    (∀ s : String,
      s ∉ ["started", "indexing", "stopping", "stopped", "aborting", "failed"] →
      map_transform_state s = TransformHealth.unknown) ∧
    (∀ rule_id : Nat,
      get_status rule_id none =
        { rule_id := rule_id, transform_id := transform_id_of rule_id
          health := TransformHealth.unknown, error := some "Transform not found" }) ∧
    (∀ (rule_id : Nat) (t : TransformEntry),
      get_status rule_id (some { transforms := [t] }) =
        { rule_id := rule_id, transform_id := transform_id_of rule_id
          health := map_transform_state t.state
          docs_processed := t.documents_processed
          docs_indexed := t.documents_indexed
          last_checkpoint :=
            match t.timestamp_millis with
            | some ms => if ms ≠ 0 then some ms else none
            | none => none }) ∧
    (∀ rule_id : Nat,
      (get_status rule_id (some { transforms := [{ state := "started" }] })).health =
          TransformHealth.green ∧
      (get_status rule_id (some { transforms := [{ state := "started" }] })).docs_processed = 0 ∧
      (get_status rule_id (some { transforms := [{ state := "started" }] })).error = none) := by
  refine ⟨by decide, ?_, ?_, ?_, ?_⟩
  · intro s hs
    simp only [List.mem_cons, List.mem_singleton, not_or] at hs
    obtain ⟨h1, h2, h3, h4, h5, h6, _⟩ := hs
    simp [map_transform_state, h1, h2, h3, h4, h5, h6]
  · intro rule_id
    rfl
  · intro rule_id t
    rfl
  · intro rule_id
    exact ⟨rfl, rfl, rfl⟩

/-- Witness for C4 at concrete inputs: an unlisted state maps to
unknown, a not-found job is unknown with an explanatory error, and a
zero-document started job is green. -/
theorem status_query_mapping_witness :
    map_transform_state "running" = TransformHealth.unknown ∧
    get_status 7 none =
      { rule_id := 7, transform_id := "l2m-rule-7"
        health := TransformHealth.unknown, error := some "Transform not found" } ∧
    (get_status 1 (some { transforms := [{ state := "started" }] })).health =
      TransformHealth.green ∧
    (get_status 1 (some { transforms := [{ state := "started" }] })).docs_processed = 0 := by
  refine ⟨status_query_mapping.2.1 "running" (by decide), ?_, ?_, ?_⟩
  · have h := status_query_mapping.2.2.1 7
    rw [h]
    rfl
  · exact (status_query_mapping.2.2.2.2 1).1
  · exact (status_query_mapping.2.2.2.2 1).2.1

/-- A rule whose source pattern carries a trailing wildcard. -/
def wildcardRule : RuleCreate :=
  { name := "error-rate", source := { index_pattern := "app-logs*" }
    group_by := { time_bucket := "1m", dimensions := ["service"] }
    compute := { type := ComputeType.count } }

/-- A stats oracle reporting a non-empty index everywhere. -/
def busyStats : StatsOracle :=
  fun index =>
    { index := index, doc_count := 100000, store_size_bytes := 500000000 }

/-- Counterexample to claim C1 as stated: for the rule with source
pattern `app-logs*`, the per-dimension cardinality query is issued
against the stripped index `app-logs`, not the literal pattern —
`estimate_cost` hands `_estimate_series_count` the same stripped index
it used for the volume query. -/
theorem cardinality_query_not_literal :
    estimate_cost_queries busyStats wildcardRule =
      [ESQuery.stat "app-logs", ESQuery.card "app-logs" "service"] ∧
    wildcardRule.source.index_pattern = "app-logs*" ∧
    ("app-logs" : String) ≠ "app-logs*" := by
  refine ⟨by decide, by decide, by decide⟩

/-- Claim C1 (amended): every engine query `estimate_cost` issues — the
index-volume query and every per-dimension cardinality query alike —
uses the source pattern with trailing wildcards stripped (falling back
to the literal pattern only when stripping leaves nothing), and the
series count is computed from cardinalities of that same stripped
index. -/
theorem all_estimator_queries_use_stripped_pattern :
    ∀ (stats : StatsOracle) (rule : RuleCreate),
      ((estimate_cost_queries stats rule).all
        (fun q => q.queryIndex == volumeIndexOf rule.source.index_pattern)) = true ∧
      ∀ (card : CardOracle) (log_retention_days : Nat),
        (estimate_cost stats card rule log_retention_days).estimated_series_count =
          (if (stats (volumeIndexOf rule.source.index_pattern)).doc_count = 0 then 0
           else estimate_series_count card (volumeIndexOf rule.source.index_pattern)
                  rule.group_by.dimensions) := by
  intro stats rule
  constructor
  · apply List.all_eq_true.mpr
    intro q hq
    simp only [estimate_cost_queries, List.mem_cons] at hq
    rcases hq with rfl | hq
    · exact beq_self_eq_true _
    · split at hq
      · simp at hq
      · split at hq
        · simp at hq
        · obtain ⟨dim, _, rfl⟩ := List.mem_map.mp hq
          exact beq_self_eq_true _
  · intro card log_retention_days
    by_cases h : (stats (volumeIndexOf rule.source.index_pattern)).doc_count = 0
    · simp [estimate_cost, h]
    · simp [estimate_cost, h]

/-- A string starting with a nonempty prefix is nonempty. -/
theorem append_ne_empty (s t : String) (h : s ≠ "") : s ++ t ≠ "" := by
  intro he
  apply h
  have hd := congrArg String.data he
  rw [String.data_append] at hd
  have h1 := (List.append_eq_nil.mp hd).1
  cases s
  simp_all

/-- The dimension-limit check: fixed name, a fix on failure, a
nonempty explanation. -/
theorem check_dimension_limit_shape (rule : RuleCreate) :
    (check_dimension_limit rule).name = "dimension_limit" ∧
    ((check_dimension_limit rule).passed = false →
      ((check_dimension_limit rule).suggested_fix).isSome = true) ∧
    (check_dimension_limit rule).explanation ≠ "" := by
  unfold check_dimension_limit
  dsimp only
  split
  · refine ⟨rfl, ?_, ?_⟩
    · intro h
      simp at h
    · repeat apply append_ne_empty
      decide
  · refine ⟨rfl, ?_, ?_⟩
    · intro _
      rfl
    · repeat apply append_ne_empty
      decide

/-- The cardinality-ceiling check: fixed name, a fix on failure, a
nonempty explanation. -/
theorem check_cardinality_shape (cost : CostEstimate) :
    (check_cardinality cost).name = "cardinality" ∧
    ((check_cardinality cost).passed = false →
      ((check_cardinality cost).suggested_fix).isSome = true) ∧
    (check_cardinality cost).explanation ≠ "" := by
  unfold check_cardinality
  dsimp only
  split
  · refine ⟨rfl, ?_, ?_⟩
    · intro h
      simp at h
    · repeat apply append_ne_empty
      decide
  · refine ⟨rfl, ?_, ?_⟩
    · intro _
      rfl
    · repeat apply append_ne_empty
      decide

/-- The deny-list check: fixed name, a fix on failure, a nonempty
explanation. -/
theorem check_high_cardinality_fields_shape (rule : RuleCreate) :
    (check_high_cardinality_fields rule).name = "high_cardinality_fields" ∧
    ((check_high_cardinality_fields rule).passed = false →
      ((check_high_cardinality_fields rule).suggested_fix).isSome = true) ∧
    (check_high_cardinality_fields rule).explanation ≠ "" := by
  unfold check_high_cardinality_fields
  dsimp only
  split
  · refine ⟨rfl, ?_, ?_⟩
    · intro h
      simp at h
    · decide
  · refine ⟨rfl, ?_, ?_⟩
    · intro _
      rfl
    · repeat apply append_ne_empty
      decide

/-- The net-savings check: fixed name, a fix on failure, a nonempty
explanation. -/
theorem check_net_savings_shape (cost : CostEstimate) :
    (check_net_savings cost).name = "net_savings" ∧
    ((check_net_savings cost).passed = false →
      ((check_net_savings cost).suggested_fix).isSome = true) ∧
    (check_net_savings cost).explanation ≠ "" := by
  unfold check_net_savings
  split
  · refine ⟨rfl, ?_, ?_⟩
    · intro h
      simp at h
    · repeat apply append_ne_empty
      decide
  · refine ⟨rfl, ?_, ?_⟩
    · intro _
      rfl
    · repeat apply append_ne_empty
      decide

/-- A stats oracle reporting an empty index everywhere — the degenerate
zero state of the cost estimate. -/
def zeroStats : StatsOracle :=
  fun index => { index := index, doc_count := 0, store_size_bytes := 0 }

/-- The failing net-savings check produced on the all-zero estimate. -/
def zeroNetSavingsFail : GuardrailResult :=
  { name := "net_savings", passed := false
    explanation :=
      "Metric storage (0.0000 GB) would exceed log storage (0.0000 GB). " ++
      "This conversion would increase costs."
    suggested_fix := some
      ("Use a larger time bucket (e.g. '5m' instead of '1m') or reduce " ++
       "the number of dimensions to decrease the metric series count.") }

/-- A fallible stats oracle: `none` models `es_connector.get_index_stats`
raising (for example `NotFoundError` when the queried index does not
exist). -/
def StatsOracleEx := String → Option IndexStats

/-- `estimate_cost` with the stats call's exception made explicit: the
single `get_index_stats(index)` call sits outside any try/except in
`estimate_cost`, so its exception aborts the whole estimate; when the
call returns, the computation is exactly `estimate_cost` applied to the
returned stats (per-dimension cardinality failures stay caught inside
`_estimate_series_count`). -/
def estimate_cost_ex (stats : StatsOracleEx) (card : CardOracle)
    (rule : RuleCreate) (log_retention_days : Nat) : Option CostEstimate :=
  match stats (volumeIndexOf rule.source.index_pattern) with
  | none => none
  | some st => some (estimate_cost (fun _ => st) card rule log_retention_days)

/-- `evaluate` with the estimator's uncaught exception made explicit:
`guardrails.evaluate` has no try/except, so an exception raised by
`estimate_cost` propagates out of the evaluator and no report is
returned; when the estimate is produced, the report is built exactly as
in `evaluate`. -/
def evaluate_ex (stats : StatsOracleEx) (card : CardOracle)
    (rule : RuleCreate) : Option GuardrailsReport :=
  match estimate_cost_ex stats card rule DEFAULT_LOG_RETENTION_DAYS with
  | none => none
  | some cost =>
    let results :=
      [ check_dimension_limit rule,
        check_cardinality cost,
        check_high_cardinality_fields rule,
        check_net_savings cost ]
    some { all_passed := results.all (fun r => r.passed)
           results := results
           cost_estimate := cost }

/-- Counterexample to claim C8 as stated: for the concrete draft rule
with source pattern `app-logs*`, when the index-stats lookup raises
(e.g. the stripped index does not exist), the exception propagates
uncaught out of the guardrail evaluator — it raises instead of
returning a structured report. -/
theorem evaluate_raises_on_stats_failure :
    evaluate_ex (fun _ => none) (fun _ _ => none) wildcardRule = none ∧
    estimate_cost_ex (fun _ => none) (fun _ _ => none) wildcardRule
      DEFAULT_LOG_RETENTION_DAYS = none := ⟨rfl, rfl⟩

/-- Claim C8 (amended): an exception from the index-stats lookup
propagates uncaught out of the guardrail evaluator; but whenever that
single lookup returns — cardinality lookups may still fail and the
estimate may degrade to the zero state — the evaluator returns a
structured report with all four named checks in order, every failing
check carrying a suggested fix and a nonempty explanation, together
with the cost estimate, and `all_passed` holds only when every check
passed. -/
theorem guardrail_report_structured_when_stats_succeed :
    ∀ (stats : StatsOracleEx) (card : CardOracle) (rule : RuleCreate),
      (stats (volumeIndexOf rule.source.index_pattern) = none →
        evaluate_ex stats card rule = none) ∧
      ∀ st : IndexStats, stats (volumeIndexOf rule.source.index_pattern) = some st →
        ∃ report, evaluate_ex stats card rule = some report ∧
          report.results.map (fun r => r.name) =
            ["dimension_limit", "cardinality", "high_cardinality_fields", "net_savings"] ∧
          (∀ r, r ∈ report.results → r.passed = false →
            (r.suggested_fix).isSome = true) ∧
          (∀ r, r ∈ report.results → r.explanation ≠ "") ∧
          report.cost_estimate =
            estimate_cost (fun _ => st) card rule DEFAULT_LOG_RETENTION_DAYS ∧
          report.all_passed = report.results.all (fun r => r.passed) := by
  intro stats card rule
  constructor
  · intro h
    simp [evaluate_ex, estimate_cost_ex, h]
  · intro st h
    have he : evaluate_ex stats card rule = some (evaluate (fun _ => st) card rule) := by
      simp [evaluate_ex, estimate_cost_ex, evaluate, h]
    refine ⟨evaluate (fun _ => st) card rule, he, ?_, ?_, ?_, rfl, rfl⟩
    · simp [evaluate, (check_dimension_limit_shape rule).1, (check_cardinality_shape _).1,
        (check_high_cardinality_fields_shape rule).1, (check_net_savings_shape _).1]
    · intro r hr hp
      simp only [evaluate, List.mem_cons, List.not_mem_nil, or_false] at hr
      rcases hr with rfl | rfl | rfl | rfl
      · exact (check_dimension_limit_shape rule).2.1 hp
      · exact (check_cardinality_shape _).2.1 hp
      · exact (check_high_cardinality_fields_shape rule).2.1 hp
      · exact (check_net_savings_shape _).2.1 hp
    · intro r hr
      simp only [evaluate, List.mem_cons, List.not_mem_nil, or_false] at hr
      rcases hr with rfl | rfl | rfl | rfl
      · exact (check_dimension_limit_shape rule).2.2
      · exact (check_cardinality_shape _).2.2
      · exact (check_high_cardinality_fields_shape rule).2.2
      · exact (check_net_savings_shape _).2.2

/-- Witness for C8 (amended) on the degraded zero-state estimate: with
the stats call returning an empty index and every cardinality lookup
raising, the evaluator still returns the fully structured report whose
failing net-savings check carries a fix; with the stats call raising,
no report is returned. -/
theorem guardrail_report_structured_witness :
    evaluate_ex (fun index => some (zeroStats index)) (fun _ _ => none) wildcardRule =
      some (evaluate zeroStats (fun _ _ => none) wildcardRule) ∧
    ((evaluate zeroStats (fun _ _ => none) wildcardRule).results.map (fun r => r.name)) =
      ["dimension_limit", "cardinality", "high_cardinality_fields", "net_savings"] ∧
    zeroNetSavingsFail ∈ (evaluate zeroStats (fun _ _ => none) wildcardRule).results ∧
    zeroNetSavingsFail.passed = false ∧
    (zeroNetSavingsFail.suggested_fix).isSome = true ∧
    evaluate_ex (fun _ => none) (fun _ _ => none) wildcardRule = none := by
  have hex : evaluate_ex (fun index => some (zeroStats index)) (fun _ _ => none) wildcardRule =
      some (evaluate zeroStats (fun _ _ => none) wildcardRule) := by
    with_unfolding_all rfl
  obtain ⟨report, he, hn, hfix, -, -, -⟩ :=
    (guardrail_report_structured_when_stats_succeed
      (fun index => some (zeroStats index)) (fun _ _ => none) wildcardRule).2
      (zeroStats (volumeIndexOf wildcardRule.source.index_pattern)) rfl
  have hrep : report = evaluate zeroStats (fun _ _ => none) wildcardRule := by
    rw [hex] at he
    exact (Option.some.inj he).symm
  have hres : (evaluate zeroStats (fun _ _ => none) wildcardRule).results =
      [ { name := "dimension_limit", passed := true
          explanation := "Rule uses 1 dimension(s) (limit: 5)." },
        { name := "cardinality", passed := true
          explanation := "Estimated series count: 0 (limit: 100,000)." },
        { name := "high_cardinality_fields", passed := true
          explanation := "No known high-cardinality field names detected." },
        zeroNetSavingsFail ] := by
    with_unfolding_all rfl
  refine ⟨hex, ?_, ?_, rfl, ?_, ?_⟩
  · rw [← hrep]
    exact hn
  · rw [hres]
    simp
  · exact hfix zeroNetSavingsFail (by rw [hrep, hres]; simp) rfl
  · exact (guardrail_report_structured_when_stats_succeed
      (fun _ => none) (fun _ _ => none) wildcardRule).1 rfl

/-- Claim C9: rule creation rejects a guardrail-failing rule — with the
full filtered list of failed checks — exactly when `skip_guardrails` is
false; with `skip_guardrails = true` the rule is persisted regardless. -/
theorem skip_guardrails_gate :
    ∀ (stats : StatsOracle) (card : CardOracle) (body : RuleCreate) (skip pok : Bool),
      (create_rule stats card body skip pok =
          CreateOutcome.rejected
            ((evaluate stats card body).results.filter (fun r => r.passed = false))
        ↔ ((evaluate stats card body).all_passed = false ∧ skip = false)) ∧
      (skip = true →
        ∃ st calls, create_rule stats card body skip pok = CreateOutcome.persisted st calls) := by
  intro stats card body skip pok
  constructor
  · constructor
    · intro h
      unfold create_rule at h
      by_cases hc : (evaluate stats card body).all_passed = false ∧ skip = false
      · exact hc
      · simp only [hc, if_false] at h
        by_cases hb : body.status = RuleStatus.active
        · simp only [hb, if_true] at h
          cases pok <;> simp at h
        · simp only [hb, if_false] at h
          simp at h
    · intro hc
      unfold create_rule
      simp [hc.1, hc.2]
  · intro hskip
    unfold create_rule
    have hc : ¬((evaluate stats card body).all_passed = false ∧ skip = false) := by
      simp [hskip]
    simp only [hc, if_false]
    split
    · split
      · exact ⟨RuleStatus.active, [BackendCall.provisionCall], rfl⟩
      · exact ⟨RuleStatus.error, [BackendCall.provisionCall], rfl⟩
    · exact ⟨body.status, [], rfl⟩

/-- Witness for C9: a rule failing net savings on the zero estimate is
rejected with the failed-check list when `skip_guardrails` is false, and
persisted when it is true. -/
theorem skip_guardrails_gate_witness :
    (evaluate zeroStats (fun _ _ => none) wildcardRule).all_passed = false ∧
    create_rule zeroStats (fun _ _ => none) wildcardRule false true =
      CreateOutcome.rejected
        ((evaluate zeroStats (fun _ _ => none) wildcardRule).results.filter
          (fun r => r.passed = false)) ∧
    (∃ st calls, create_rule zeroStats (fun _ _ => none) wildcardRule true true =
      CreateOutcome.persisted st calls) := by
  have hap : (evaluate zeroStats (fun _ _ => none) wildcardRule).all_passed = false := by
    with_unfolding_all rfl
  refine ⟨hap, ?_, ?_⟩
  · exact (skip_guardrails_gate zeroStats (fun _ _ => none) wildcardRule false true).1.mpr
      ⟨hap, rfl⟩
  · exact (skip_guardrails_gate zeroStats (fun _ _ => none) wildcardRule true true).2 rfl

/-- Claim C3: on an active rule staying active, a payload touching only
name and/or owner makes no backend call; a payload containing group_by,
compute or source makes exactly one deprovision then one provision, in
that order; and activating a draft rule makes exactly one provision
call. -/
theorem update_rule_backend_calls :
    ∀ (rule : StoredRule) (upd : RuleUpdatePayload) (provisionOk : Bool),
      (rule.status = RuleStatus.active →
       (upd.status = none ∨ upd.status = some RuleStatus.active) →
        ((upd.source = none → upd.group_by = none → upd.compute = none →
          upd.backend_config = none → upd.origin = none →
            (update_rule rule upd provisionOk).1 = []) ∧
         ((upd.group_by.isSome = true ∨ upd.compute.isSome = true ∨ upd.source.isSome = true) →
            (update_rule rule upd provisionOk).1 =
              [BackendCall.deprovisionCall, BackendCall.provisionCall]))) ∧
      (rule.status = RuleStatus.draft → upd.status = some RuleStatus.active →
        (update_rule rule upd provisionOk).1 = [BackendCall.provisionCall]) := by
  intro rule upd provisionOk
  constructor
  · intro hact hst
    have hnew : (apply_update rule upd).status = RuleStatus.active := by
      rcases hst with h | h <;> simp [apply_update, h, hact]
    constructor
    · intro hs hg hc _ _
      unfold update_rule
      simp [hact, hnew, hs, hg, hc]
    · intro htouch
      have hc : (upd.group_by.isSome ∨ upd.compute.isSome ∨ upd.source.isSome : Prop) := by
        rcases htouch with h | h | h
        · exact Or.inl (by simp [h])
        · exact Or.inr (Or.inl (by simp [h]))
        · exact Or.inr (Or.inr (by simp [h]))
      unfold update_rule
      simp only [hact, hnew]
      rw [if_neg (by simp), if_pos (by simp), if_pos hc]
      cases provisionOk <;> rfl
  · intro hdraft hst
    have hnew : (apply_update rule upd).status = RuleStatus.active := by
      simp [apply_update, hst]
    unfold update_rule
    simp [hdraft, hnew]
    cases provisionOk <;> simp

/-- A concrete active stored rule. -/
def activeRule : StoredRule :=
  { id := 1, name := "latency", source := { index_pattern := "app-logs*" }
    group_by := { time_bucket := "1m", dimensions := ["service"] }
    compute := { type := ComputeType.count }, status := RuleStatus.active }

/-- The same rule as a draft. -/
def draftRule : StoredRule := { activeRule with status := RuleStatus.draft }

/-- Witness for C3: a rename makes no backend call, a group_by change
makes deprovision then provision, activating a draft makes one
provision call. -/
theorem update_rule_backend_calls_witness :
    (update_rule activeRule { name := some "renamed" } true).1 = [] ∧
    (update_rule activeRule
        { group_by := some { time_bucket := "5m", dimensions := ["service"] } } true).1 =
      [BackendCall.deprovisionCall, BackendCall.provisionCall] ∧
    (update_rule draftRule { status := some RuleStatus.active } true).1 =
      [BackendCall.provisionCall] := by
  refine ⟨?_, ?_, ?_⟩
  · exact ((update_rule_backend_calls activeRule { name := some "renamed" } true).1
      rfl (Or.inl rfl)).1 rfl rfl rfl rfl rfl
  · exact ((update_rule_backend_calls activeRule
      { group_by := some { time_bucket := "5m", dimensions := ["service"] } } true).1
      rfl (Or.inl rfl)).2 (Or.inl rfl)
  · exact (update_rule_backend_calls draftRule { status := some RuleStatus.active } true).2
      rfl rfl

/-- Claim C10: for an active rule staying active, reprovisioning is
triggered by the mere presence of a group_by / compute / source key —
whatever the submitted value, including one identical to the stored
configuration — and the backend-call decision depends only on which
keys are present and on the submitted status, never on comparing old
and new values. -/
theorem reprovision_on_key_presence :
    ∀ (rule : StoredRule) (provisionOk : Bool),
      (∀ (gb : GroupByConfig) (st : Option RuleStatus),
        rule.status = RuleStatus.active →
        (st = none ∨ st = some RuleStatus.active) →
        (update_rule rule { group_by := some gb, status := st } provisionOk).1 =
          [BackendCall.deprovisionCall, BackendCall.provisionCall]) ∧
      (∀ upd1 upd2 : RuleUpdatePayload,
        upd1.status = upd2.status →
        upd1.source.isSome = upd2.source.isSome →
        upd1.group_by.isSome = upd2.group_by.isSome →
        upd1.compute.isSome = upd2.compute.isSome →
        (update_rule rule upd1 provisionOk).1 = (update_rule rule upd2 provisionOk).1) := by
  intro rule provisionOk
  constructor
  · intro gb st hact hst
    have hnew : (apply_update rule { group_by := some gb, status := st }).status =
        RuleStatus.active := by
      rcases hst with h | h <;> simp [apply_update, h, hact]
    unfold update_rule
    simp only [hact, hnew]
    rw [if_neg (by simp), if_pos (by simp), if_pos (Or.inl (by simp))]
    cases provisionOk <;> rfl
  · intro upd1 upd2 h0 h1 h2 h3
    have hs : (apply_update rule upd1).status = (apply_update rule upd2).status := by
      simp only [apply_update]
      rw [h0]
    simp only [update_rule,
      apply_ite (Prod.fst : List BackendCall × StoredRule → List BackendCall)]
    simp only [hs, h0, h1, h2, h3]

/-- Witness for C10: submitting the stored group_by value unchanged
still triggers deprovision-then-provision, and a different submitted
value yields the same call sequence. -/
theorem reprovision_on_key_presence_witness :
    (update_rule activeRule { group_by := some activeRule.group_by } true).1 =
      [BackendCall.deprovisionCall, BackendCall.provisionCall] ∧
    (update_rule activeRule { group_by := some activeRule.group_by } true).2.group_by =
      activeRule.group_by ∧
    (update_rule activeRule
        { group_by := some { time_bucket := "9h", dimensions := ["endpoint"] } } true).1 =
      (update_rule activeRule { group_by := some activeRule.group_by } true).1 := by
  refine ⟨?_, rfl, ?_⟩
  · exact (reprovision_on_key_presence activeRule true).1 activeRule.group_by none
      rfl (Or.inl rfl)
  · exact (reprovision_on_key_presence activeRule true).2
      { group_by := some { time_bucket := "9h", dimensions := ["endpoint"] } }
      { group_by := some activeRule.group_by } rfl rfl rfl rfl

/-- Claim C5: a reconciliation cycle treats every rule independently —
the updated rule list is the pointwise image of a per-rule step (so an
exception while checking one rule, modelled as the status oracle
answering `none`, never affects a sibling), and every active rule whose
backend health is red or stopped is flipped to error with the reason
recorded. -/
theorem reconciliation_isolated_per_rule :
    ∀ (rules : List StoredRule) (statusOf : Nat → Option BackendStatus),
      (check_all_active_rules rules statusOf).1 =
        rules.map (fun r => (check_one_rule statusOf r).1) ∧
      (check_all_active_rules rules statusOf).2 =
        rules.filterMap (fun r => (check_one_rule statusOf r).2) ∧
      (∀ r st, r.status = RuleStatus.active → statusOf r.id = some st →
        (st.health = TransformHealth.red ∨ st.health = TransformHealth.stopped) →
        (check_one_rule statusOf r).1 = { r with status := RuleStatus.error } ∧
        (check_one_rule statusOf r).2 =
          some { rule_id := r.id, rule_name := r.name
                 transform_health := healthValue st.health, error := st.error }) := by
  intro rules statusOf
  refine ⟨?_, ?_, ?_⟩
  · induction rules with
    | nil => rfl
    | cons r rest ih =>
      simp only [check_all_active_rules, List.map_cons]
      rcases h : check_one_rule statusOf r with ⟨r', e⟩
      cases e <;> simp [h, ih]
  · induction rules with
    | nil => rfl
    | cons r rest ih =>
      simp only [check_all_active_rules, List.filterMap_cons]
      rcases h : check_one_rule statusOf r with ⟨r', e⟩
      cases e <;> simp [h, ih]
  · intro r st hact hst hh
    unfold check_one_rule
    rw [if_pos hact, hst]
    dsimp only
    rw [if_pos hh]
    exact ⟨rfl, rfl⟩

/-- Two active rules for the reconciler witness. -/
def reconRule1 : StoredRule :=
  { id := 1, name := "error-rate", source := { index_pattern := "app-logs*" }
    compute := { type := ComputeType.count }, status := RuleStatus.active }

/-- A second active rule whose transform has failed. -/
def reconRule2 : StoredRule :=
  { id := 2, name := "latency", source := { index_pattern := "app-logs*" }
    compute := { type := ComputeType.avg, field := some "latency" }
    status := RuleStatus.active }

/-- The failed backend status the oracle reports for rule 2. -/
def reconRedStatus : BackendStatus :=
  { rule_id := 2, transform_id := "l2m-rule-2"
    health := TransformHealth.red, error := some "transform failed" }

/-- A status oracle that raises (answers `none`) for rule 1 and reports
red for rule 2. -/
def reconOracle : Nat → Option BackendStatus :=
  fun rule_id => if rule_id = 2 then some reconRedStatus else none

/-- Witness for C5: rule 1's check raising does not stop rule 2 from
being flipped to error and recorded. -/
theorem reconciliation_isolated_witness :
    (check_all_active_rules [reconRule1, reconRule2] reconOracle).1 =
      [reconRule1, { reconRule2 with status := RuleStatus.error }] ∧
    (check_all_active_rules [reconRule1, reconRule2] reconOracle).2 =
      [{ rule_id := 2, rule_name := "latency", transform_health := "red"
         error := some "transform failed" }] := by
  have h := reconciliation_isolated_per_rule [reconRule1, reconRule2] reconOracle
  have h2 := h.2.2 reconRule2 reconRedStatus rfl rfl (Or.inl rfl)
  constructor
  · rw [h.1]
    simp only [List.map_cons, List.map_nil]
    rw [h2.1]
    rfl
  · rw [h.2.1]
    simp only [List.filterMap_cons, List.filterMap_nil]
    rw [h2.2]
    rfl

/-- The engine state in which rule 1 (retention 450) is already fully
provisioned: its retention policy, destination index and started
transform all exist. -/
def provisionedState : EngineState :=
  { ilm_policies := ["l2m-metrics-450d"], indices := ["l2m-metrics-rule-1"]
    transforms := ["l2m-rule-1"], started_transforms := ["l2m-rule-1"] }

/-- Counterexample to claim C2 as stated: calling provision on the
already-provisioned rule 1 is not a benign no-op — the destination
index's "already exists" error fails the whole provision and the
best-effort cleanup then deletes the existing transform and index,
leaving the rule's resources destroyed. -/
theorem provision_on_provisioned_destroys :
    ((provision provisionedState activeRule).2).success = false ∧
    ((provision provisionedState activeRule).2).error =
      some "resource_already_exists_exception" ∧
    (provision provisionedState activeRule).1 =
      { ilm_policies := ["l2m-metrics-450d"], indices := []
        transforms := [], started_transforms := [] } := by
  refine ⟨by decide, by decide, by decide⟩

/-- Stopping a missing transform raises not-found. -/
theorem stopTransform_missing (s : EngineState) (tid : String)
    (h : s.transforms.contains tid = false) :
    stopTransform s tid = Except.error ESError.notFound := by
  have h' : tid ∉ s.transforms := by simpa using h
  simp [stopTransform, h']

/-- Stopping an existing transform clears its started flag. -/
theorem stopTransform_present (s : EngineState) (tid : String)
    (h : s.transforms.contains tid = true) :
    stopTransform s tid =
      Except.ok { s with started_transforms := s.started_transforms.erase tid } := by
  simp only [stopTransform]
  rw [if_pos h]

/-- Deleting a missing transform raises not-found. -/
theorem deleteTransform_missing (s : EngineState) (tid : String)
    (h : s.transforms.contains tid = false) :
    deleteTransform s tid = Except.error ESError.notFound := by
  have h' : tid ∉ s.transforms := by simpa using h
  simp [deleteTransform, h']

/-- Deleting an existing transform removes it. -/
theorem deleteTransform_present (s : EngineState) (tid : String)
    (h : s.transforms.contains tid = true) :
    deleteTransform s tid =
      Except.ok { s with transforms := s.transforms.erase tid
                         started_transforms := s.started_transforms.erase tid } := by
  simp only [deleteTransform]
  rw [if_pos h]

/-- Deleting a missing index raises not-found. -/
theorem indicesDelete_missing (s : EngineState) (name : String)
    (h : s.indices.contains name = false) :
    indicesDelete s name = Except.error ESError.notFound := by
  have h' : name ∉ s.indices := by simpa using h
  simp [indicesDelete, h']

/-- Deleting an existing index removes it. -/
theorem indicesDelete_present (s : EngineState) (name : String)
    (h : s.indices.contains name = true) :
    indicesDelete s name = Except.ok { s with indices := s.indices.erase name } := by
  simp only [indicesDelete]
  rw [if_pos h]

/-- Creating an existing index raises already-exists. -/
theorem indicesCreate_present (s : EngineState) (name : String)
    (h : s.indices.contains name = true) :
    indicesCreate s name = Except.error ESError.alreadyExists := by
  simp only [indicesCreate]
  rw [if_pos h]

/-- Creating a fresh index adds it. -/
theorem indicesCreate_missing (s : EngineState) (name : String)
    (h : s.indices.contains name = false) :
    indicesCreate s name = Except.ok { s with indices := name :: s.indices } := by
  have h' : name ∉ s.indices := by simpa using h
  simp [indicesCreate, h']

/-- Creating a fresh transform adds it. -/
theorem putTransform_missing (s : EngineState) (tid : String)
    (h : s.transforms.contains tid = false) :
    putTransform s tid = Except.ok { s with transforms := tid :: s.transforms } := by
  have h' : tid ∉ s.transforms := by simpa using h
  simp [putTransform, h']

/-- Starting an existing transform marks it started. -/
theorem startTransform_present (s : EngineState) (tid : String)
    (h : s.transforms.contains tid = true) :
    startTransform s tid =
      Except.ok { s with started_transforms := tid :: s.started_transforms } := by
  simp only [startTransform]
  rw [if_pos h]

/-- `_ensure_ilm_policy` on an already-present policy is a no-op
returning the existing policy name. -/
theorem ensure_ilm_policy_present (s : EngineState) (retention_days : Nat)
    (h : s.ilm_policies.contains (ilm_policy_name retention_days) = true) :
    ensure_ilm_policy s retention_days = (s, ilm_policy_name retention_days) := by
  simp only [ensure_ilm_policy, ilmGetLifecycle]
  rw [if_pos h]

/-- `_ensure_ilm_policy` touches only the policy list: indices,
transforms and started transforms are unchanged. -/
theorem ensure_ilm_policy_preserves (s : EngineState) (retention_days : Nat) :
    ((ensure_ilm_policy s retention_days).1).indices = s.indices ∧
    ((ensure_ilm_policy s retention_days).1).transforms = s.transforms ∧
    ((ensure_ilm_policy s retention_days).1).started_transforms = s.started_transforms := by
  unfold ensure_ilm_policy ilmPutLifecycle
  dsimp only
  split
  · exact ⟨rfl, rfl, rfl⟩
  · split
    · exact ⟨rfl, rfl, rfl⟩
    · exact ⟨rfl, rfl, rfl⟩

/-- Claim C2 (amended): deprovision on a rule with no backing resources
is a benign no-op (each step's not-found is swallowed and the state is
unchanged), and provision treats an already-existing retention policy
as a benign reuse; but provision when the destination index already
exists fails the provision and removes the rule's index and transform
via best-effort cleanup instead of treating it as a no-op. -/
theorem provision_deprovision_idempotency :
    ∀ (s : EngineState) (rule : StoredRule),
      (s.transforms.contains (transform_id_of rule.id) = false →
       s.indices.contains (metrics_index_of rule.id) = false →
        deprovision s rule.id = s) ∧
      (s.ilm_policies.contains (ilm_policy_name rule.backend_config.retention_days) = true →
       s.transforms.contains (transform_id_of rule.id) = false →
       s.indices.contains (metrics_index_of rule.id) = false →
        provision s rule =
          ({ s with indices := metrics_index_of rule.id :: s.indices
                    transforms := transform_id_of rule.id :: s.transforms
                    started_transforms := transform_id_of rule.id :: s.started_transforms },
           { success := true, transform_id := transform_id_of rule.id
             metrics_index := metrics_index_of rule.id
             ilm_policy := some (ilm_policy_name rule.backend_config.retention_days) })) ∧
      (s.indices.contains (metrics_index_of rule.id) = true →
        ((provision s rule).2).success = false ∧
        ((provision s rule).1).indices = s.indices.erase (metrics_index_of rule.id) ∧
        ((provision s rule).1).transforms = s.transforms.erase (transform_id_of rule.id)) := by
  intro s rule
  refine ⟨?_, ?_, ?_⟩
  · intro ht hi
    simp only [deprovision]
    rw [stopTransform_missing s _ ht]
    dsimp only
    rw [deleteTransform_missing s _ ht]
    dsimp only
    rw [indicesDelete_missing s _ hi]
  · intro hp ht hi
    simp only [provision]
    rw [ensure_ilm_policy_present s _ hp]
    dsimp only
    simp only [create_metrics_index]
    rw [indicesCreate_missing s _ hi]
    dsimp only
    rw [putTransform_missing { s with indices := metrics_index_of rule.id :: s.indices }
      (transform_id_of rule.id) ht]
    dsimp only
    rw [startTransform_present _ _ (by simp)]
  · intro hi
    obtain ⟨hI, hT, hS⟩ := ensure_ilm_policy_preserves s rule.backend_config.retention_days
    rcases hens : ensure_ilm_policy s rule.backend_config.retention_days with ⟨s1, policy⟩
    rw [hens] at hI hT hS
    dsimp only at hI hT hS
    simp only [provision]
    rw [hens]
    dsimp only
    simp only [create_metrics_index]
    rw [indicesCreate_present s1 _ (by rw [hI]; exact hi)]
    dsimp only
    simp only [cleanup_partial_steps]
    by_cases htid : s.transforms.contains (transform_id_of rule.id) = true
    · rw [stopTransform_present s1 _ (by rw [hT]; exact htid)]
      dsimp only
      rw [deleteTransform_present _ _ (by rw [hT]; exact htid)]
      dsimp only
      rw [indicesDelete_present _ _ (by rw [hI]; exact hi)]
      dsimp only
      refine ⟨trivial, ?_, ?_⟩
      · rw [hI]
      · rw [hT]
    · have htid' : s.transforms.contains (transform_id_of rule.id) = false := by
        simpa using htid
      rw [stopTransform_missing s1 _ (by rw [hT]; exact htid')]
      dsimp only
      rw [deleteTransform_missing s1 _ (by rw [hT]; exact htid')]
      dsimp only
      rw [indicesDelete_present s1 _ (by rw [hI]; exact hi)]
      dsimp only
      refine ⟨trivial, ?_, ?_⟩
      · rw [hI]
      · rw [hT, List.erase_of_not_mem (by simpa using htid')]

/-- The engine state holding only the 450-day retention policy. -/
def policyOnlyState : EngineState :=
  { ilm_policies := ["l2m-metrics-450d"], indices := []
    transforms := [], started_transforms := [] }

/-- Witness for C2 (amended) at concrete states: deprovision of the
unprovisioned rule 1 is a no-op, provision with the policy already
present reuses it and succeeds, and provision with the destination
index already present fails and deletes it. -/
theorem provision_deprovision_idempotency_witness :
    deprovision policyOnlyState 1 = policyOnlyState ∧
    provision policyOnlyState activeRule =
      (provisionedState,
       { success := true, transform_id := "l2m-rule-1"
         metrics_index := "l2m-metrics-rule-1", ilm_policy := some "l2m-metrics-450d" }) ∧
    ((provision provisionedState activeRule).2).success = false ∧
    ((provision provisionedState activeRule).1).indices = [] := by
  have h1 := (provision_deprovision_idempotency policyOnlyState activeRule).1 (by decide) (by decide)
  have h2 := (provision_deprovision_idempotency policyOnlyState activeRule).2.1
    (by decide) (by decide) (by decide)
  have h3 := (provision_deprovision_idempotency provisionedState activeRule).2.2 (by decide)
  refine ⟨h1, ?_, h3.1, ?_⟩
  · rw [h2]
    rfl
  · rw [h3.2.1]
    rfl
